import Mathlib

/-!
# Verification of the chiaSWARM worker poll loop

Shallow embedding of `src/swarm/worker.py`: the device-leasing pool combined
with the adaptive work-polling loop.  Python async functions are modelled as
pure Lean functions; a function that may raise returns `Except PyExc`;
`print` calls are collected into a `List String` log; the outcomes of the
external collaborators (the network exchange, `torch.cuda.mem_get_info`,
`do_work`, the results POST) are supplied by explicit environment records.
-/

namespace Swarm

/-- JSON-like values, as decoded from server response bodies
(the result of Python `json` decoding). -/
inductive JVal where
  | jnull
  | jbool (b : Bool)
  | jnum (n : Int)
  | jstr (s : String)
  | jlist (xs : List JVal)
  | jobj (fields : List (String × JVal))

/-- A CUDA device handle: `Device(i)` in `src/swarm/gpu/device.py` carries the
integer ordinal `i` (field `device_id`). -/
structure Device where
  device_id : Nat
deriving DecidableEq, Repr

/-- The Python exceptions that can arise in `worker.py`, keeping the
`aiohttp` / `asyncio` / `json` classification that the `except` clauses of
`ask_for_work` distinguish. -/
inductive PyExc where
  | jsonDecodeError
  | typeError (msg : String)
  | clientConnectorError (msg : String)
  | clientResponseError (status : Nat) (msg : String)
  | clientError (msg : String)
  | timeoutError
  | otherError (msg : String)
deriving DecidableEq, Repr

/-- `isinstance(e, aiohttp.ClientConnectorError)`. -/
def is_client_connector_error : PyExc → Bool
  | .clientConnectorError _ => true
  | _ => false

/-- `isinstance(e, aiohttp.ClientError)`: `ClientConnectorError` and
`ClientResponseError` are subclasses of `ClientError` in aiohttp. -/
def is_client_error : PyExc → Bool
  | .clientConnectorError _ => true
  | .clientResponseError _ _ => true
  | .clientError _ => true
  | _ => false

/-- `isinstance(e, asyncio.TimeoutError)`. -/
def is_timeout_error : PyExc → Bool
  | .timeoutError => true
  | _ => false

/-- A short rendering of an exception, used where Python interpolates the
exception into a printed message. -/
def excMsg : PyExc → String
  | .jsonDecodeError => "JSONDecodeError"
  | .typeError m => "TypeError: " ++ m
  | .clientConnectorError m => "ClientConnectorError: " ++ m
  | .clientResponseError s m => "ClientResponseError " ++ toString s ++ ": " ++ m
  | .clientError m => "ClientError: " ++ m
  | .timeoutError => "TimeoutError"
  | .otherError m => "Error: " ++ m

/-- An HTTP response as the worker sees it: status code, the JSON decoding of
the body (`none` when the body cannot be decoded), and the raw body text. -/
structure Response where
  status : Nat
  body : Option JVal
  text : String

/-- `await response.json()`: the decoded body, raising a decode error when the
body is not decodable. -/
def response_json (response : Response) : Except PyExc JVal :=
  match response.body with
  | none => .error .jsonDecodeError
  | some j => .ok j

/-- `response.raise_for_status()`: raises `aiohttp.ClientResponseError` for a
status of 400 or above, otherwise does nothing. -/
def raise_for_status (response : Response) : Except PyExc Unit :=
  if 400 ≤ response.status then
    .error (.clientResponseError response.status "raise_for_status")
  else
    .ok ()

/-- Python string rendering of a decoded JSON value (as interpolated into
printed messages). -/
def jvalStr : JVal → String
  | .jnull => "None"
  | .jbool true => "True"
  | .jbool false => "False"
  | .jnum n => toString n
  | .jstr s => s
  | .jlist _ => "[list]"
  | .jobj _ => "[dict]"

/-- `needle in haystack` for Python strings: substring containment
(for a non-empty needle). -/
def str_contains (hay need : String) : Bool :=
  (hay.splitOn need).length > 1

/-- Equality of a decoded JSON value with a Python string (`==` in Python is
only true against an equal string). -/
def jval_is_str (v : JVal) (s : String) : Bool :=
  match v with
  | .jstr t => t == s
  | _ => false

/-- Python `k in v` for a decoded JSON value `v`: key membership for a dict,
element equality for a list, substring test for a string, and a `TypeError`
for the non-iterable values (numbers, booleans, `None`). -/
def pyIn (v : JVal) (k : String) : Except PyExc Bool :=
  match v with
  | .jobj fields => .ok (fields.any (fun p => p.1 == k))
  | .jlist xs => .ok (xs.any (fun x => jval_is_str x k))
  | .jstr s => .ok (str_contains s k)
  | _ => .error (.typeError "argument is not iterable")

/-- Python `v[k]` for a string key `k`: dict lookup (KeyError when absent);
a `TypeError` for lists, strings and the other values. -/
def pyIndex (v : JVal) (k : String) : Except PyExc JVal :=
  match v with
  | .jobj fields =>
    match fields.find? (fun p => p.1 == k) with
    | some p => .ok p.2
    | none => .error (.otherError "KeyError")
  | _ => .error (.typeError "indices must be integers")

/-- Python `v.pop(k, default)` rendered to a string: dict pop with a default;
a `TypeError` for the other values (no such method / wrong signature). -/
def pyPop (v : JVal) (k : String) (dflt : String) : Except PyExc String :=
  match v with
  | .jobj fields =>
    match fields.find? (fun p => p.1 == k) with
    | some p => .ok (jvalStr p.2)
    | none => .ok dflt
  | _ => .error (.typeError "pop")

/-- The settings record loaded once at module import (`load_settings()`). -/
structure Settings where
  sdaas_uri : String
  sdaas_token : String
  worker_name : String
  log_filename : String
  log_level : String

/-- Python `s.rstrip(c)` for the single character `c`. -/
def rstrip_char (s : String) (c : Char) : String :=
  String.mk (s.toList.reverse.dropWhile (fun x => x == c)).reverse

/-- `hive_uri = f(settings.sdaas_uri.rstrip(slash))/api`. -/
def hive_uri (st : Settings) : String :=
  rstrip_char st.sdaas_uri '/' ++ "/api"

/-- Modelled from the spec: the package version string `__version__` of
`src/swarm/__init__.py`, which is not under `src/`; the spec only requires
that the work request carries the worker version. -/
def version_string : String := "0.1.0"

/-- The request `ask_for_work` issues against the work endpoint: URL, fixed
timeout, the query parameters and the headers, as built by `session.get` in
`worker.py`. -/
structure WorkRequest where
  url : String
  timeout : Nat
  worker_version : String
  worker_name : String
  vram : Nat
  content_type : String
  authorization : String
  user_agent : String
deriving DecidableEq, Repr

/-- The `GET /work` request as assembled in `ask_for_work`, given the pair
`mem_info = torch.cuda.mem_get_info(device.device_id)` (free bytes, total
bytes): the `vram` query parameter is `mem_info[1]`, the second component. -/
def build_work_request (st : Settings) (device : Device) (mem_info : Nat × Nat) :
    WorkRequest :=
  { url := hive_uri st ++ "/work"
    timeout := 10
    worker_version := version_string
    worker_name := st.worker_name ++ ":" ++ toString device.device_id
    vram := mem_info.2
    content_type := "application/json"
    authorization := "Bearer " ++ st.sdaas_token
    user_agent := "chiaSWARM.worker/" ++ version_string }

/-- The outcomes of the external collaborators of one `spawn_task` call: what
`do_work(job, device)` returns (or raises), and the response of the
`POST /results` exchange (or the exception it raises). -/
structure JobEnv where
  doWorkResult : Except PyExc JVal
  postResponse : Except PyExc Response

/-- The body of `spawn_task`'s `try` block: run `do_work`, then POST the
result; a 500 from the hive is printed, any other response has its JSON body
printed (which may itself raise a decode error). -/
def spawn_task_try (device : Device) (env : JobEnv) : Except PyExc (List String) :=
  match env.doWorkResult with
  | .error e => .error e
  | .ok _result =>
    match env.postResponse with
    | .error e => .error e
    | .ok resultResponse =>
      if resultResponse.status == 500 then
        .ok ["The hive returned an error: " ++ resultResponse.text]
      else
        match resultResponse.body with
        | none => .error .jsonDecodeError
        | some j => .ok ["Device " ++ toString device.device_id ++ " " ++ jvalStr j]

/-- `spawn_task(job, device, session)`: prints a header, then runs the `try`
block; every exception from computing the job or submitting the result is
caught and printed, so `spawn_task` never raises. -/
def spawn_task (_job : JVal) (device : Device) (env : JobEnv) : List String :=
  let header := "Device " ++ toString device.device_id ++ " got work"
  match spawn_task_try device env with
  | .ok log => header :: log
  | .error e =>
    [header,
     "Error: An exception occurred while processing the job or submitting the results: "
       ++ excMsg e]

/-- The `for job in response_dict[jobs-key]` loop of `handle_status_200`:
`spawn_task` is awaited once per job, in list order; the returned pair is the
accumulated log and the list of jobs dispatched, in dispatch order.  The
environment `jobEnvs i` supplies the collaborator outcomes of the `i`-th
dispatch. -/
def run_jobs (device : Device) (jobEnvs : Nat → JobEnv) :
    List JVal → Nat → List String × List JVal
  | [], _ => ([], [])
  | job :: rest, i =>
    let log := spawn_task job device (jobEnvs i)
    let r := run_jobs device jobEnvs rest (i + 1)
    (log ++ r.1, job :: r.2)

/-- The result of one of the status handlers inside the `try` block of
`ask_for_work`: the value returned (or the exception raised), the printed
lines, and the jobs passed to `spawn_task`, in order. -/
structure HandlerResult where
  outcome : Except PyExc Nat
  log : List String
  dispatched : List JVal

/-- `handle_status_200(response, device, session)`: decode the body (a decode
failure is caught and yields 11); check `jobs-key in response_dict` (11 when
absent; a `TypeError` from a non-iterable body propagates); check
`isinstance(response_dict[jobs-key], list)` (11 when not a list); otherwise
dispatch every job in order and return 0 when at least one job was dispatched
(the loop sets `did_work = True` on every iteration), 11 otherwise. -/
def handle_status_200 (response : Response) (device : Device)
    (jobEnvs : Nat → JobEnv) : HandlerResult :=
  match response_json response with
  | .error _ =>
    { outcome := .ok 11
      log := ["Error: Unable to decode server response: " ++ response.text]
      dispatched := [] }
  | .ok response_dict =>
    match pyIn response_dict "jobs" with
    | .error e => { outcome := .error e, log := [], dispatched := [] }
    | .ok mem =>
      if !mem then
        { outcome := .ok 11
          log := ["Error: jobs field is missing in the server response"]
          dispatched := [] }
      else
        match pyIndex response_dict "jobs" with
        | .error e => { outcome := .error e, log := [], dispatched := [] }
        | .ok jobsVal =>
          match jobsVal with
          | .jlist jobs =>
            let r := run_jobs device jobEnvs jobs 0
            { outcome := .ok (if jobs.isEmpty then 11 else 0)
              log := r.1
              dispatched := r.2 }
          | _ =>
            { outcome := .ok 11
              log := ["Error: jobs field is not a list in the server response"]
              dispatched := [] }

/-- The result of `handle_status_400`: it either raises (a decode error, a
`TypeError` from `pop` on a non-dict body, or the `ClientResponseError` from
`raise_for_status`) or — only were the status below 400 — returns. -/
structure Handler400Result where
  outcome : Except PyExc Unit
  log : List String

/-- `handle_status_400(response)`: decode the body (a decode failure
propagates — this handler has no `except` clause), pop the `message` field
with default `bad worker`, print it, then `raise_for_status()` (which always
raises here, the status being 400). -/
def handle_status_400 (st : Settings) (response : Response) : Handler400Result :=
  match response_json response with
  | .error e => { outcome := .error e, log := [] }
  | .ok response_dict =>
    match pyPop response_dict "message" "bad worker" with
    | .error e => { outcome := .error e, log := [] }
    | .ok message =>
      match raise_for_status response with
      | .error e =>
        { outcome := .error e, log := [hive_uri st ++ " says " ++ message] }
      | .ok _ =>
        { outcome := .ok (), log := [hive_uri st ++ " says " ++ message] }

/-- The external collaborator outcomes of one `ask_for_work` call: what
`torch.cuda.mem_get_info(i)` returns for ordinal `i` (the pair of free and
total bytes, or a raised CUDA error), the outcome of the `GET /work`
exchange, and the per-dispatch `spawn_task` collaborator outcomes. -/
structure IterEnv where
  memInfo : Nat → Except PyExc (Nat × Nat)
  fetch : Except PyExc Response
  jobEnvs : Nat → JobEnv

/-- The `try` block of `ask_for_work`, once `mem_info` is in hand: perform
the `GET`, then branch on the status: 200 goes to `handle_status_200`; 400
goes to `handle_status_400` followed by `return 11` (unreachable, the handler
always raising); any other status is printed and `raise_for_status()` is
called (raising for 4xx/5xx), followed by `return 11`. -/
def ask_inner (st : Settings) (env : IterEnv) (device : Device) :
    Except PyExc Nat × List String × List JVal :=
  match env.fetch with
  | .error e => (.error e, [], [])
  | .ok response =>
    if response.status == 200 then
      let h := handle_status_200 response device env.jobEnvs
      (h.outcome, h.log, h.dispatched)
    else if response.status == 400 then
      let h := handle_status_400 st response
      (h.outcome.map (fun _ => 11), h.log, [])
    else
      let line := hive_uri st ++ " returned " ++ toString response.status
      match raise_for_status response with
      | .error e => (.error e, [line], [])
      | .ok _ => (.ok 11, [line], [])

/-- The printed lines of the four `except` clauses of `ask_for_work`, in
clause order (`ClientConnectorError`, `ClientError`, `asyncio.TimeoutError`,
`Exception`); every clause returns 121. -/
def classify_exc (e : PyExc) : List String :=
  if is_client_connector_error e then
    ["Error: Could not connect to the server: " ++ excMsg e]
  else if is_client_error e then
    ["Error: An unexpected error occurred while making the request: " ++ excMsg e]
  else if is_timeout_error e then
    ["Error: Request timed out"]
  else
    ["Error: An unknown error occurred: " ++ excMsg e]

/-- The result of one `ask_for_work` call: the wait value it returns (or the
exception it raises — only `mem_get_info`, called before the `try` block, can
raise out of it), the request it built (none when `mem_get_info` raised
first), the jobs it dispatched, and its printed lines. -/
structure AskResult where
  outcome : Except PyExc Nat
  request : Option WorkRequest
  dispatched : List JVal
  log : List String

/-- The line `ask_for_work` prints before anything else. -/
def ask_header (st : Settings) (device : Device) : String :=
  "Device " ++ toString device.device_id
    ++ " asking for work from the hive at " ++ hive_uri st

/-- `ask_for_work(device)`: print the header, query
`torch.cuda.mem_get_info(device.device_id)` live (outside the `try` block, so
a failure here propagates to the caller), build the request, run the `try`
block, and convert every exception raised inside it to a returned 121 via the
four `except` clauses. -/
def ask_for_work (st : Settings) (env : IterEnv) (device : Device) : AskResult :=
  match env.memInfo device.device_id with
  | .error e =>
    { outcome := .error e, request := none, dispatched := []
      log := [ask_header st device] }
  | .ok mem_info =>
    match ask_inner st env device with
    | (.ok w, log, ds) =>
      { outcome := .ok w, request := some (build_work_request st device mem_info)
        dispatched := ds, log := ask_header st device :: log }
    | (.error e, log, ds) =>
      { outcome := .ok 121, request := some (build_work_request st device mem_info)
        dispatched := ds, log := ask_header st device :: (log ++ classify_exc e) }

/-- Modelled from the spec: `remove_device_from_pool` of
`src/swarm/gpu/device_pool.py` is not under `src/`; per the spec it removes
and returns one available Device — any available one — and blocks when none
is available (modelled as `none`: no completed iteration). -/
def remove_device_from_pool : List Device → Option (Device × List Device)
  | [] => none
  | d :: rest => some (d, rest)

/-- Modelled from the spec: `add_device_to_pool` of
`src/swarm/gpu/device_pool.py` is not under `src/`; per the spec it returns a
Device to the available set. -/
def add_device_to_pool (d : Device) (pool : List Device) : List Device :=
  pool ++ [d]

/-- The state the `while True` loop of `run_worker` carries between
iterations: the current `wait_seconds` and the device pool. -/
structure LoopState where
  wait_seconds : Nat
  pool : List Device
deriving DecidableEq, Repr

/-- The `try`/`except Exception` around `ask_for_work` in the loop body of
`run_worker`: a returned wait value is kept, a raised exception is printed
and becomes `wait_seconds = 121`. -/
def wait_of : Except PyExc Nat → Nat
  | .ok w => w
  | .error _ => 121

/-- One iteration of the `while True` loop of `run_worker`: sleep (no state
change), acquire a device (blocking — `none` — when the pool is empty), run
`ask_for_work` with its exception handling, and return the device to the pool
in the `finally` clause. -/
def run_worker_iter (st : Settings) (env : IterEnv) (s : LoopState) :
    Option (LoopState × AskResult) :=
  match remove_device_from_pool s.pool with
  | none => none
  | some (device, rest) =>
    some ({ wait_seconds := wait_of (ask_for_work st env device).outcome
            pool := add_device_to_pool device rest },
          ask_for_work st env device)

/-- `n` consecutive iterations of the `run_worker` loop, the `k`-th drawing
its collaborator outcomes from `envs k`. -/
def run_worker_iters (st : Settings) (envs : Nat → IterEnv) :
    Nat → LoopState → Option LoopState
  | 0, s => some s
  | n + 1, s =>
    match run_worker_iter st (envs n) s with
    | none => none
    | some (s2, _) => run_worker_iters st envs n s2

/-- The torch facts `startup` consults: `torch.cuda.is_available()`,
`torch.__version__` (as a numeric triple compared lexicographically, the way
`packaging.version` compares release triples), and
`torch.cuda.device_count()`. -/
structure TorchEnv where
  cuda_available : Bool
  torch_version : Nat × Nat × Nat
  device_count : Nat

/-- `version.parse(a) < version.parse(b)` on release triples: lexicographic
comparison. -/
def version_lt (a b : Nat × Nat × Nat) : Bool :=
  a.1 < b.1 || (a.1 == b.1 && (a.2.1 < b.2.1 || (a.2.1 == b.2.1 && a.2.2 < b.2.2)))

/-- `startup()`: raise when CUDA is not available; raise when the torch
version is below 2.0.0; otherwise add `Device(i)` to the pool for every
`i in range(torch.cuda.device_count())`, returning the resulting pool (built
from the empty pool by `add_device_to_pool`, in ordinal order). -/
def startup (env : TorchEnv) : Except PyExc (List Device) :=
  if !env.cuda_available then
    .error (.otherError "CUDA not present. Quitting.")
  else if version_lt env.torch_version (2, 0, 0) then
    .error (.otherError "Pytorch must be 2.0 or greater. Run install script. Quitting.")
  else
    .ok ((List.range env.device_count).foldl
      (fun pool i => add_device_to_pool { device_id := i } pool) [])

/-- Whether a decoded JSON value is a list (`isinstance(v, list)`). -/
def jval_is_list : JVal → Bool
  | .jlist _ => true
  | _ => false

/-! ## Fixtures for the concrete witnesses and counterexamples -/

def sample_settings : Settings :=
  { sdaas_uri := "http://hive.example/", sdaas_token := "tok", worker_name := "w"
    log_filename := "log.txt", log_level := "info" }

def sample_job_env : JobEnv :=
  { doWorkResult := .ok .jnull
    postResponse := .ok { status := 200, body := some .jnull, text := "" } }

/-- An iteration environment where `mem_get_info` reports 100 free and 999
total bytes and the `GET /work` exchange yields the given response. -/
def mk_env (r : Response) : IterEnv :=
  { memInfo := fun _ => .ok (100, 999), fetch := .ok r
    jobEnvs := fun _ => sample_job_env }

/-- An iteration environment where `mem_get_info` itself raises, so
`ask_for_work` raises before entering its `try` block. -/
def raise_env : IterEnv :=
  { memInfo := fun _ => .error (.otherError "CUDA error")
    fetch := .error .timeoutError, jobEnvs := fun _ => sample_job_env }

/-- An iteration environment where the `GET /work` exchange raises a
connection error. -/
def conn_fail_env : IterEnv :=
  { memInfo := fun _ => .ok (100, 999)
    fetch := .error (.clientConnectorError "refused")
    jobEnvs := fun _ => sample_job_env }

def no_work_response : Response :=
  { status := 200, body := some (.jobj [("jobs", .jlist [])]), text := "" }

/-! ## Helper lemmas -/

theorem run_jobs_snd (device : Device) (je : Nat → JobEnv) (l : List JVal)
    (i : Nat) : (run_jobs device je l i).2 = l := by
  induction l generalizing i with
  | nil => rfl
  | cons j rest ih => simp [run_jobs, ih]

theorem pool_rotate_perm (d : Device) (rest : List Device) :
    (add_device_to_pool d rest).Perm (d :: rest) := by
  unfold add_device_to_pool
  exact List.perm_append_singleton d rest

theorem run_worker_iter_cons (st : Settings) (env : IterEnv) (w : Nat)
    (d : Device) (rest : List Device) :
    run_worker_iter st env { wait_seconds := w, pool := d :: rest }
      = some ({ wait_seconds := wait_of (ask_for_work st env d).outcome
                pool := add_device_to_pool d rest },
              ask_for_work st env d) := rfl

theorem ask_inner_200 (st : Settings) (env : IterEnv) (device : Device)
    (r : Response) (hf : env.fetch = .ok r) (hs : r.status = 200) :
    ask_inner st env device
      = ((handle_status_200 r device env.jobEnvs).outcome,
         (handle_status_200 r device env.jobEnvs).log,
         (handle_status_200 r device env.jobEnvs).dispatched) := by
  unfold ask_inner
  rw [hf]
  simp [hs]

theorem ask_for_work_of_inner_ok (st : Settings) (env : IterEnv)
    (device : Device) (mem : Nat × Nat) (w : Nat) (log : List String)
    (ds : List JVal) (hm : env.memInfo device.device_id = .ok mem)
    (hi : ask_inner st env device = (.ok w, log, ds)) :
    ask_for_work st env device
      = { outcome := .ok w, request := some (build_work_request st device mem)
          dispatched := ds, log := ask_header st device :: log } := by
  unfold ask_for_work
  rw [hm, hi]

theorem ask_for_work_of_inner_error (st : Settings) (env : IterEnv)
    (device : Device) (mem : Nat × Nat) (e : PyExc) (log : List String)
    (ds : List JVal) (hm : env.memInfo device.device_id = .ok mem)
    (hi : ask_inner st env device = (.error e, log, ds)) :
    ask_for_work st env device
      = { outcome := .ok 121, request := some (build_work_request st device mem)
          dispatched := ds
          log := ask_header st device :: (log ++ classify_exc e) } := by
  unfold ask_for_work
  rw [hm, hi]

theorem handle_status_200_undecodable (r : Response) (device : Device)
    (je : Nat → JobEnv) (hb : r.body = none) :
    handle_status_200 r device je
      = { outcome := .ok 11
          log := ["Error: Unable to decode server response: " ++ r.text]
          dispatched := [] } := by
  unfold handle_status_200 response_json
  rw [hb]

theorem handle_status_200_jobs (r : Response) (device : Device)
    (je : Nat → JobEnv) (fields : List (String × JVal)) (jobs : List JVal)
    (hb : r.body = some (.jobj fields))
    (hj : fields.find? (fun p => p.1 == "jobs") = some ("jobs", .jlist jobs)) :
    handle_status_200 r device je
      = { outcome := .ok (if jobs.isEmpty then 11 else 0)
          log := (run_jobs device je jobs 0).1
          dispatched := jobs } := by
  have hpr := List.find?_some hj
  have hmem := List.mem_of_find?_eq_some hj
  have hany : fields.any (fun p => p.1 == "jobs") = true :=
    List.any_eq_true.mpr ⟨_, hmem, hpr⟩
  unfold handle_status_200 response_json pyIn pyIndex
  rw [hb]
  simp [hany, hj, run_jobs_snd]

theorem handle_status_200_no_jobs (r : Response) (device : Device)
    (je : Nat → JobEnv) (fields : List (String × JVal))
    (hb : r.body = some (.jobj fields))
    (hj : fields.find? (fun p => p.1 == "jobs") = none) :
    handle_status_200 r device je
      = { outcome := .ok 11
          log := ["Error: jobs field is missing in the server response"]
          dispatched := [] } := by
  have hany : fields.any (fun p => p.1 == "jobs") = false := by
    rw [List.any_eq_false]
    intro p hp
    simp [List.find?_eq_none.mp hj p hp]
  unfold handle_status_200 response_json pyIn
  rw [hb]
  simp [hany]

theorem handle_status_200_bad_jobs (r : Response) (device : Device)
    (je : Nat → JobEnv) (fields : List (String × JVal)) (pr : String × JVal)
    (hb : r.body = some (.jobj fields))
    (hj : fields.find? (fun p => p.1 == "jobs") = some pr)
    (hnl : jval_is_list pr.2 = false) :
    handle_status_200 r device je
      = { outcome := .ok 11
          log := ["Error: jobs field is not a list in the server response"]
          dispatched := [] } := by
  have hpr := List.find?_some hj
  have hmem := List.mem_of_find?_eq_some hj
  have hany : fields.any (fun p => p.1 == "jobs") = true :=
    List.any_eq_true.mpr ⟨_, hmem, hpr⟩
  unfold handle_status_200 response_json pyIn pyIndex
  rw [hb]
  simp only [hany, hj, Bool.not_true, Bool.false_eq_true, if_false]
  cases h2 : pr.2 <;> simp_all [jval_is_list]

/-! ## The claims -/

/-- C1: in every iteration of the poll loop, the Device acquired from the
pool at the start of the iteration is returned to the pool exactly once by
the end of that iteration — for every collaborator environment, including
those where the work-request step raises — so the multiset of devices that
are either available in the pool or held by the loop is constant: the pool
after the iteration is a permutation of the pool before it. -/
theorem claim_C1_lease_restored (st : Settings) (env : IterEnv) (s : LoopState)
    (h : s.pool ≠ []) :
    ∃ s2 r, run_worker_iter st env s = some (s2, r) ∧ s2.pool.Perm s.pool := by
  obtain ⟨w, pool⟩ := s
  cases pool with
  | nil => simp at h
  | cons d rest =>
    exact ⟨_, _, run_worker_iter_cons st env w d rest, pool_rotate_perm d rest⟩

/-- C1 witness: one concrete iteration over the pool `[Device 0, Device 1]`
in an environment where `ask_for_work` raises (`mem_get_info` fails): the
iteration completes and the pool still holds both devices. -/
theorem claim_C1_lease_restored_witness :
    ∃ s2 r,
      run_worker_iter sample_settings raise_env
          { wait_seconds := 0, pool := [{ device_id := 0 }, { device_id := 1 }] }
        = some (s2, r) ∧
      s2.pool.Perm [{ device_id := 0 }, { device_id := 1 }] :=
  claim_C1_lease_restored sample_settings raise_env
    { wait_seconds := 0, pool := [{ device_id := 0 }, { device_id := 1 }] }
    (by simp)

def c2_response : Response :=
  { status := 400, body := some (.jobj [("message", .jstr "rate limited")])
    text := "" }

/-- C2 counterexample: on a concrete HTTP 400 response carrying
`message: rate limited`, `ask_for_work` does not surface/raise the error for
the iteration: the `ClientResponseError` raised by
`handle_status_400`'s `raise_for_status()` is a subclass of
`aiohttp.ClientError` and is caught by `ask_for_work`'s own
`except aiohttp.ClientError` clause, so `ask_for_work` returns the normal
wait value 121. -/
theorem claim_C2_counterexample :
    (ask_for_work sample_settings (mk_env c2_response) { device_id := 0 }).outcome
        = Except.ok 121 ∧
    ((ask_for_work sample_settings (mk_env c2_response)
        { device_id := 0 }).outcome).isOk = true :=
  ⟨rfl, rfl⟩

/-- C2 (amended): for every HTTP 400 response whose body decodes to a JSON
object, `handle_status_400` derives a message from the server-supplied
`message` field (defaulting to `bad worker`), prints it, and raises a
`ClientResponseError`; that exception is caught inside `ask_for_work` by its
client-error clause, so `ask_for_work` returns the wait value 121 for that
iteration (it does not propagate the error), and the device lease is still
released: the iteration restores the pool. -/
theorem claim_C2_error_caught_as_121 (st : Settings) (env : IterEnv)
    (device : Device) (mem : Nat × Nat) (r : Response)
    (fields : List (String × JVal))
    (hm : env.memInfo device.device_id = .ok mem)
    (hf : env.fetch = .ok r) (hs : r.status = 400)
    (hb : r.body = some (.jobj fields)) :
    ∃ msg, pyPop (.jobj fields) "message" "bad worker" = .ok msg ∧
      (handle_status_400 st r).outcome
        = .error (.clientResponseError 400 "raise_for_status") ∧
      (hive_uri st ++ " says " ++ msg) ∈ (handle_status_400 st r).log ∧
      (ask_for_work st env device).outcome = .ok 121 ∧
      ∀ w rest, ∃ s2 a,
        run_worker_iter st env { wait_seconds := w, pool := device :: rest }
            = some (s2, a) ∧
          s2.pool.Perm (device :: rest) := by
  have hjson : response_json r = .ok (.jobj fields) := by
    unfold response_json
    rw [hb]
  have hpop : ∃ msg, pyPop (.jobj fields) "message" "bad worker" = .ok msg := by
    simp only [pyPop]
    cases fields.find? (fun p => p.1 == "message") with
    | none => exact ⟨_, rfl⟩
    | some p => exact ⟨_, rfl⟩
  obtain ⟨msg, hmsg⟩ := hpop
  have hraise : raise_for_status r = .error (.clientResponseError 400 "raise_for_status") := by
    unfold raise_for_status
    rw [hs]
    simp
  have h400 : handle_status_400 st r
      = { outcome := .error (.clientResponseError 400 "raise_for_status")
          log := [hive_uri st ++ " says " ++ msg] } := by
    simp only [handle_status_400, hjson, hmsg, hraise]
  have hinner : ask_inner st env device
      = (.error (.clientResponseError 400 "raise_for_status"),
         [hive_uri st ++ " says " ++ msg], []) := by
    simp only [ask_inner, hf, hs, h400]
    simp [Except.map]
  have hask := ask_for_work_of_inner_error st env device mem
    (.clientResponseError 400 "raise_for_status")
    [hive_uri st ++ " says " ++ msg] [] hm hinner
  refine ⟨msg, hmsg, by rw [h400], by rw [h400]; simp, by rw [hask], ?_⟩
  intro w rest
  exact ⟨_, _, run_worker_iter_cons st env w device rest,
    pool_rotate_perm device rest⟩

/-- C2 witness: the amended claim at the concrete 400 response with
`message: rate limited` — the derived message is `rate limited`, the handler
raises the client response error, `ask_for_work` returns 121, and the pool
`[Device 0]` is restored. -/
theorem claim_C2_error_caught_as_121_witness :
    ∃ msg, pyPop (.jobj [("message", .jstr "rate limited")]) "message" "bad worker"
        = .ok msg ∧
      (handle_status_400 sample_settings c2_response).outcome
        = .error (.clientResponseError 400 "raise_for_status") ∧
      (hive_uri sample_settings ++ " says " ++ msg)
        ∈ (handle_status_400 sample_settings c2_response).log ∧
      (ask_for_work sample_settings (mk_env c2_response)
        { device_id := 0 }).outcome = .ok 121 ∧
      ∀ w rest, ∃ s2 a,
        run_worker_iter sample_settings (mk_env c2_response)
            { wait_seconds := w, pool := { device_id := 0 } :: rest }
            = some (s2, a) ∧
          s2.pool.Perm ({ device_id := 0 } :: rest) :=
  claim_C2_error_caught_as_121 sample_settings (mk_env c2_response)
    { device_id := 0 } (100, 999) c2_response
    [("message", .jstr "rate limited")] rfl rfl rfl rfl

/-- C3: for every HTTP 200 response whose body decodes to a JSON object whose
`jobs` field holds a list, `ask_for_work` passes every element of that list
to `spawn_task` exactly once, in list order, and returns the wait value 0
when the list is non-empty and 11 when it is empty. -/
theorem claim_C3_jobs_dispatched_in_order (st : Settings) (env : IterEnv)
    (device : Device) (mem : Nat × Nat) (r : Response)
    (fields : List (String × JVal)) (jobs : List JVal)
    (hm : env.memInfo device.device_id = .ok mem)
    (hf : env.fetch = .ok r) (hs : r.status = 200)
    (hb : r.body = some (.jobj fields))
    (hj : fields.find? (fun p => p.1 == "jobs") = some ("jobs", .jlist jobs)) :
    (ask_for_work st env device).dispatched = jobs ∧
    (ask_for_work st env device).outcome
      = .ok (if jobs.isEmpty then 11 else 0) := by
  have h200 := handle_status_200_jobs r device env.jobEnvs fields jobs hb hj
  have hinner : ask_inner st env device
      = (.ok (if jobs.isEmpty then 11 else 0), (run_jobs device env.jobEnvs jobs 0).1,
         jobs) := by
    rw [ask_inner_200 st env device r hf hs, h200]
  have hask := ask_for_work_of_inner_ok st env device mem
    (if jobs.isEmpty then 11 else 0) (run_jobs device env.jobEnvs jobs 0).1 jobs
    hm hinner
  rw [hask]
  exact ⟨rfl, rfl⟩

def c3_response : Response :=
  { status := 200
    body := some (.jobj [("jobs", .jlist [.jstr "j1", .jstr "j2"])])
    text := "" }

/-- C3 witness: at a concrete 200 response with `jobs: [j1, j2]`, exactly
`[j1, j2]` is dispatched, in order, and the returned wait value is 0. -/
theorem claim_C3_jobs_dispatched_in_order_witness :
    (ask_for_work sample_settings (mk_env c3_response)
        { device_id := 0 }).dispatched = [.jstr "j1", .jstr "j2"] ∧
    (ask_for_work sample_settings (mk_env c3_response)
        { device_id := 0 }).outcome
      = .ok (if ([JVal.jstr "j1", JVal.jstr "j2"]).isEmpty then 11 else 0) :=
  claim_C3_jobs_dispatched_in_order sample_settings (mk_env c3_response)
    { device_id := 0 } (100, 999) c3_response
    [("jobs", .jlist [.jstr "j1", .jstr "j2"])] [.jstr "j1", .jstr "j2"]
    rfl rfl rfl rfl rfl

def c4_response : Response := { status := 200, body := some (.jnum 5), text := "5" }

/-- C4 counterexample: on a concrete HTTP 200 response whose body decodes to
the JSON number 5 — a decoded body with no `jobs` field — `ask_for_work` does
not return the wait value 11: the Python membership test
`jobs-key not in response_dict` raises a `TypeError` on the non-iterable
decoded value, which escapes `handle_status_200` (its only `except` clause is
for decode errors) and is caught by `ask_for_work`'s final
`except Exception` clause, so the returned wait value is 121. -/
theorem claim_C4_counterexample :
    (ask_for_work sample_settings (mk_env c4_response) { device_id := 0 }).outcome
        = Except.ok 121 ∧
    (ask_for_work sample_settings (mk_env c4_response) { device_id := 0 }).outcome
        ≠ Except.ok 11 := by
  refine ⟨rfl, ?_⟩
  intro h
  rw [show (ask_for_work sample_settings (mk_env c4_response)
      { device_id := 0 }).outcome = Except.ok 121 from rfl] at h
  exact absurd (Except.ok.inj h) (by decide)

/-- C4 (amended): for every HTTP 200 response whose body cannot be decoded,
or whose body decodes to a JSON object that is missing the `jobs` field or
whose `jobs` field is not a list, `ask_for_work` returns the wait value 11,
logs the problem, raises nothing, and never invokes the job dispatcher.
(When the body decodes to a non-object value the membership test for the
`jobs` key instead raises a `TypeError`, caught by the generic handler,
yielding 121 — see the counterexample — still with no dispatch and no
escaping exception.) -/
theorem claim_C4_malformed_body_11 (st : Settings) (env : IterEnv)
    (device : Device) (mem : Nat × Nat) (r : Response)
    (hm : env.memInfo device.device_id = .ok mem)
    (hf : env.fetch = .ok r) (hs : r.status = 200)
    (hb : r.body = none
        ∨ ∃ fields, r.body = some (.jobj fields) ∧
            (fields.find? (fun p => p.1 == "jobs") = none
             ∨ ∃ pr, fields.find? (fun p => p.1 == "jobs") = some pr ∧
                 jval_is_list pr.2 = false)) :
    (ask_for_work st env device).outcome = .ok 11 ∧
    (ask_for_work st env device).dispatched = [] ∧
    (handle_status_200 r device env.jobEnvs).log ≠ [] := by
  have h200 : ∃ line, handle_status_200 r device env.jobEnvs
      = { outcome := .ok 11, log := [line], dispatched := [] } := by
    rcases hb with hb | ⟨fields, hb, hj | ⟨pr, hj, hnl⟩⟩
    · exact ⟨_, handle_status_200_undecodable r device env.jobEnvs hb⟩
    · exact ⟨_, handle_status_200_no_jobs r device env.jobEnvs fields hb hj⟩
    · exact ⟨_, handle_status_200_bad_jobs r device env.jobEnvs fields pr hb hj hnl⟩
  obtain ⟨line, h200⟩ := h200
  have hinner : ask_inner st env device = (.ok 11, [line], []) := by
    rw [ask_inner_200 st env device r hf hs, h200]
  have hask := ask_for_work_of_inner_ok st env device mem 11 [line] [] hm hinner
  rw [hask, h200]
  exact ⟨rfl, rfl, by simp⟩

def c4_missing_response : Response :=
  { status := 200, body := some (.jobj [("foo", .jnull)]), text := "" }

/-- C4 witness: the amended claim at a concrete 200 response whose decoded
object has no `jobs` field — wait 11, nothing dispatched, the problem
logged. -/
theorem claim_C4_malformed_body_11_witness :
    (ask_for_work sample_settings (mk_env c4_missing_response)
        { device_id := 0 }).outcome = .ok 11 ∧
    (ask_for_work sample_settings (mk_env c4_missing_response)
        { device_id := 0 }).dispatched = [] ∧
    (handle_status_200 c4_missing_response { device_id := 0 }
        (mk_env c4_missing_response).jobEnvs).log ≠ [] :=
  claim_C4_malformed_body_11 sample_settings (mk_env c4_missing_response)
    { device_id := 0 } (100, 999) c4_missing_response rfl rfl rfl
    (Or.inr ⟨[("foo", .jnull)], rfl, Or.inl rfl⟩)

/-- C5: every failure of the work-request exchange — connection failure, any
other client-level failure, timeout, or any other exception raised inside
the `try` block — makes `ask_for_work` return the wait value 121 without
raising; and for every exception that nevertheless escapes `ask_for_work`
(only `mem_get_info`, called before the `try`, can raise out of it), the
poll loop catches it and sets the next wait to 121, still restoring the
pool, so no poll failure terminates the loop. -/
theorem claim_C5_failures_give_121 :
    (∀ (st : Settings) (env : IterEnv) (device : Device) (mem : Nat × Nat)
        (e : PyExc), env.memInfo device.device_id = .ok mem →
        env.fetch = .error e →
        (ask_for_work st env device).outcome = .ok 121) ∧
    (∀ (st : Settings) (env : IterEnv) (w : Nat) (d : Device)
        (rest : List Device) (e : PyExc),
        (ask_for_work st env d).outcome = .error e →
        ∃ s2 a, run_worker_iter st env { wait_seconds := w, pool := d :: rest }
            = some (s2, a) ∧
          s2.wait_seconds = 121 ∧ s2.pool.Perm (d :: rest)) := by
  constructor
  · intro st env device mem e hm hf
    have hinner : ask_inner st env device = (.error e, [], []) := by
      unfold ask_inner
      rw [hf]
    rw [ask_for_work_of_inner_error st env device mem e [] [] hm hinner]
  · intro st env w d rest e he
    refine ⟨_, _, run_worker_iter_cons st env w d rest, ?_, pool_rotate_perm d rest⟩
    simp only [wait_of, he]

/-- C5 witness: with a concrete connection failure the returned wait is 121;
and with a concrete raise from `mem_get_info` the loop iteration completes
with `wait_seconds = 121` and the pool `[Device 0]` restored. -/
theorem claim_C5_failures_give_121_witness :
    (ask_for_work sample_settings conn_fail_env { device_id := 0 }).outcome
        = .ok 121 ∧
    ∃ s2 a, run_worker_iter sample_settings raise_env
          { wait_seconds := 0, pool := [{ device_id := 0 }] }
        = some (s2, a) ∧
      s2.wait_seconds = 121 ∧ s2.pool.Perm [{ device_id := 0 }] :=
  ⟨claim_C5_failures_give_121.1 sample_settings conn_fail_env { device_id := 0 }
      (100, 999) (.clientConnectorError "refused") rfl rfl,
   claim_C5_failures_give_121.2 sample_settings raise_env 0 { device_id := 0 } []
      (.otherError "CUDA error") rfl⟩

theorem handle_status_200_indep (r : Response) (device : Device)
    (je1 je2 : Nat → JobEnv) :
    (handle_status_200 r device je1).outcome
        = (handle_status_200 r device je2).outcome ∧
    (handle_status_200 r device je1).dispatched
        = (handle_status_200 r device je2).dispatched := by
  unfold handle_status_200 response_json pyIn pyIndex
  cases hb : r.body with
  | none => exact ⟨rfl, rfl⟩
  | some d =>
    cases d with
    | jobj fields =>
      cases hany : fields.any (fun p => p.1 == "jobs") with
      | false => simp [hany]
      | true =>
        simp only [hany, Bool.not_true, Bool.false_eq_true, if_false]
        cases hfind : fields.find? (fun p => p.1 == "jobs") with
        | none => exact ⟨rfl, rfl⟩
        | some p => cases hp2 : p.2 <;> simp [hp2, run_jobs_snd]
    | jnull => exact ⟨rfl, rfl⟩
    | jbool b => exact ⟨rfl, rfl⟩
    | jnum n => exact ⟨rfl, rfl⟩
    | jstr s => exact ⟨rfl, rfl⟩
    | jlist xs => exact ⟨rfl, rfl⟩

def fail_job_env : JobEnv :=
  { doWorkResult := .error (.otherError "oom")
    postResponse := .ok { status := 200, body := some .jnull, text := "" } }

/-- C6: any failure while computing a job or submitting its result is caught
and logged inside `spawn_task` (first two conjuncts: a raising `do_work`, and
an HTTP 500 from the results endpoint, each produce only printed lines — the
function always returns its log, never an exception), and — third conjunct —
the wait value computed by `handle_status_200` and the sequence of jobs it
dispatches are independent of the per-job collaborator outcomes, so one
failing job prevents neither the dispatch of the subsequent jobs nor the
iteration wait value of 0. -/
theorem claim_C6_job_failures_isolated :
    (∀ (job : JVal) (device : Device) (env : JobEnv) (e : PyExc),
        env.doWorkResult = .error e →
        spawn_task job device env =
          ["Device " ++ toString device.device_id ++ " got work",
           "Error: An exception occurred while processing the job or submitting the results: "
             ++ excMsg e]) ∧
    (∀ (job : JVal) (device : Device) (env : JobEnv) (res : JVal) (r : Response),
        env.doWorkResult = .ok res → env.postResponse = .ok r →
        r.status = 500 →
        spawn_task job device env =
          ["Device " ++ toString device.device_id ++ " got work",
           "The hive returned an error: " ++ r.text]) ∧
    (∀ (r : Response) (device : Device) (je1 je2 : Nat → JobEnv),
        (handle_status_200 r device je1).outcome
            = (handle_status_200 r device je2).outcome ∧
        (handle_status_200 r device je1).dispatched
            = (handle_status_200 r device je2).dispatched) := by
  refine ⟨?_, ?_, ?_⟩
  · intro job device env e he
    unfold spawn_task spawn_task_try
    rw [he]
  · intro job device env res r hw hp hs
    unfold spawn_task spawn_task_try
    simp [hw, hp, hs]
  · intro r device je1 je2
    exact handle_status_200_indep r device je1 je2

/-- C6 witness: a concrete failing `do_work` is caught and logged by
`spawn_task`, and with `jobs: [j1, j2]` the outcome and dispatch order are
the same whether every job fails or every job succeeds. -/
theorem claim_C6_job_failures_isolated_witness :
    spawn_task .jnull { device_id := 0 } fail_job_env =
      ["Device " ++ toString ({ device_id := 0 } : Device).device_id ++ " got work",
       "Error: An exception occurred while processing the job or submitting the results: "
         ++ excMsg (.otherError "oom")] ∧
    ((handle_status_200 c3_response { device_id := 0 }
          (fun _ => fail_job_env)).outcome
        = (handle_status_200 c3_response { device_id := 0 }
          (fun _ => sample_job_env)).outcome ∧
     (handle_status_200 c3_response { device_id := 0 }
          (fun _ => fail_job_env)).dispatched
        = (handle_status_200 c3_response { device_id := 0 }
          (fun _ => sample_job_env)).dispatched) :=
  ⟨claim_C6_job_failures_isolated.1 .jnull { device_id := 0 } fail_job_env
      (.otherError "oom") rfl,
   claim_C6_job_failures_isolated.2.2 c3_response { device_id := 0 }
      (fun _ => fail_job_env) (fun _ => sample_job_env)⟩

/-- C7 counterexample: `torch.cuda.mem_get_info` returns the pair
(free bytes, total bytes); at the concrete environment where it returns
(100, 999) the request sent by `ask_for_work` carries `vram = 999` — the
code sends `mem_info[1]`, the total memory — not the 100 bytes currently
free, refuting the claim that `vram` is the number of bytes free. -/
theorem claim_C7_counterexample :
    ((ask_for_work sample_settings (mk_env no_work_response)
        { device_id := 0 }).request.map WorkRequest.vram) = some 999 ∧
    ((ask_for_work sample_settings (mk_env no_work_response)
        { device_id := 0 }).request.map WorkRequest.vram) ≠ some 100 := by
  refine ⟨rfl, ?_⟩
  intro h
  rw [show ((ask_for_work sample_settings (mk_env no_work_response)
      { device_id := 0 }).request.map WorkRequest.vram) = some 999 from rfl] at h
  exact absurd (Option.some.inj h) (by decide)

/-- C7 (amended): for every work request issued for a leased device, the
request carries the worker version, the configured worker name composed with
the device ordinal, and as `vram` the second component of the live
`mem_get_info` answer for that device — the device's total memory in bytes,
not the bytes currently free — together with the fixed 10-unit timeout; the
memory query is live: the request is built from whatever `mem_get_info`
returns in the current iteration environment. -/
theorem claim_C7_request_fields (st : Settings) (env : IterEnv)
    (device : Device) (mem : Nat × Nat)
    (hm : env.memInfo device.device_id = .ok mem) :
    (ask_for_work st env device).request = some (build_work_request st device mem) ∧
    (build_work_request st device mem).worker_version = version_string ∧
    (build_work_request st device mem).worker_name
      = st.worker_name ++ ":" ++ toString device.device_id ∧
    (build_work_request st device mem).vram = mem.2 ∧
    (build_work_request st device mem).timeout = 10 := by
  refine ⟨?_, rfl, rfl, rfl, rfl⟩
  unfold ask_for_work
  rw [hm]
  rcases hi : ask_inner st env device with ⟨o, log, ds⟩
  cases o <;> rfl

/-- C7 witness: the amended claim at the concrete environment reporting
(100 free, 999 total): the request is built with `vram = 999`. -/
theorem claim_C7_request_fields_witness :
    (ask_for_work sample_settings (mk_env no_work_response)
        { device_id := 0 }).request
      = some (build_work_request sample_settings { device_id := 0 } (100, 999)) ∧
    (build_work_request sample_settings { device_id := 0 }
        (100, 999)).worker_version = version_string ∧
    (build_work_request sample_settings { device_id := 0 } (100, 999)).worker_name
      = sample_settings.worker_name ++ ":"
          ++ toString ({ device_id := 0 } : Device).device_id ∧
    (build_work_request sample_settings { device_id := 0 } (100, 999)).vram
      = (100, 999).2 ∧
    (build_work_request sample_settings { device_id := 0 } (100, 999)).timeout
      = 10 :=
  claim_C7_request_fields sample_settings (mk_env no_work_response)
    { device_id := 0 } (100, 999) rfl

theorem foldl_add_device (l : List Nat) (init : List Device) :
    l.foldl (fun pool i => add_device_to_pool { device_id := i } pool) init
      = init ++ l.map (fun i => ({ device_id := i } : Device)) := by
  induction l generalizing init with
  | nil => simp
  | cons a t ih =>
    rw [List.foldl_cons, ih]
    simp [add_device_to_pool]

/-- C8: `startup` raises — so the process cannot reach the poll loop — when
CUDA is unavailable, when the torch version is below 2.0.0, and (given
torch's coupling `is_available() = (device_count() > 0)`, supplied as the
hypothesis on the torch environment) when no devices are found; otherwise it
registers Device 0 .. Device (n-1), every enumerated device, into the lease
pool in ordinal order. -/
theorem claim_C8_startup_preconditions (env : TorchEnv)
    (htorch : env.cuda_available = decide (0 < env.device_count)) :
    (env.cuda_available = false → ∃ m, startup env = .error (.otherError m)) ∧
    (version_lt env.torch_version (2, 0, 0) = true →
        ∃ m, startup env = .error (.otherError m)) ∧
    (env.device_count = 0 → ∃ m, startup env = .error (.otherError m)) ∧
    (env.cuda_available = true → version_lt env.torch_version (2, 0, 0) = false →
        startup env
          = .ok ((List.range env.device_count).map
              (fun i => { device_id := i }))) := by
  refine ⟨?_, ?_, ?_, ?_⟩
  · intro hc
    refine ⟨"CUDA not present. Quitting.", ?_⟩
    unfold startup
    rw [hc]
    rfl
  · intro hv
    cases hc : env.cuda_available with
    | false =>
      refine ⟨"CUDA not present. Quitting.", ?_⟩
      unfold startup
      rw [hc]
      rfl
    | true =>
      refine ⟨"Pytorch must be 2.0 or greater. Run install script. Quitting.", ?_⟩
      unfold startup
      rw [hc, hv]
      rfl
  · intro hn
    have hc : env.cuda_available = false := by
      rw [htorch, hn]
      rfl
    refine ⟨"CUDA not present. Quitting.", ?_⟩
    unfold startup
    rw [hc]
    rfl
  · intro hc hv
    unfold startup
    rw [hc, hv, foldl_add_device]
    rfl

/-- C8 witness: with CUDA absent (and zero devices) startup fails; with CUDA
present, torch 2.1.0 and two devices, startup registers exactly
Device 0 and Device 1. -/
theorem claim_C8_startup_preconditions_witness :
    (∃ m, startup { cuda_available := false, torch_version := (2, 1, 0)
                    device_count := 0 } = .error (.otherError m)) ∧
    startup { cuda_available := true, torch_version := (2, 1, 0)
              device_count := 2 }
      = .ok ((List.range 2).map (fun i => { device_id := i })) :=
  ⟨(claim_C8_startup_preconditions
      { cuda_available := false, torch_version := (2, 1, 0), device_count := 0 }
      rfl).1 rfl,
   (claim_C8_startup_preconditions
      { cuda_available := true, torch_version := (2, 1, 0), device_count := 2 }
      rfl).2.2.2 rfl rfl⟩

/-- A work-request environment in which the hive answers 200 with an empty
`jobs` list (the NoWorkAvailable outcome) and `mem_get_info` succeeds on
every ordinal. -/
def NoWorkEnv (env : IterEnv) : Prop :=
  (∀ i, ∃ mem, env.memInfo i = .ok mem) ∧
  ∃ r fields, env.fetch = .ok r ∧ r.status = 200 ∧
    r.body = some (.jobj fields) ∧
    fields.find? (fun p => p.1 == "jobs") = some ("jobs", .jlist [])

theorem ask_for_work_no_work (st : Settings) (env : IterEnv) (device : Device)
    (h : NoWorkEnv env) : (ask_for_work st env device).outcome = .ok 11 := by
  obtain ⟨hmem, r, fields, hf, hs, hb, hj⟩ := h
  obtain ⟨mem, hm⟩ := hmem device.device_id
  have h200 := handle_status_200_jobs r device env.jobEnvs fields [] hb hj
  have hinner : ask_inner st env device = (.ok 11, [], []) := by
    rw [ask_inner_200 st env device r hf hs, h200]
    rfl
  rw [ask_for_work_of_inner_ok st env device mem 11 [] [] hm hinner]

theorem run_worker_iters_succ_cons (st : Settings) (envs : Nat → IterEnv)
    (n w : Nat) (d : Device) (rest : List Device) :
    run_worker_iters st envs (n + 1) { wait_seconds := w, pool := d :: rest }
      = run_worker_iters st envs n
          { wait_seconds := wait_of (ask_for_work st (envs n) d).outcome
            pool := add_device_to_pool d rest } := rfl

/-- C9: the state of one loop iteration depends only on the current
iteration's collaborator outcomes, not on the previous wait value (first
conjunct: the iteration result is literally the same for any two incoming
wait values); and across any number of consecutive NoWorkAvailable
iterations `wait_seconds` is exactly 11 after each of them — no drift or
growth — while the pool stays a permutation of the initial pool. -/
theorem claim_C9_wait_memoryless :
    (∀ (st : Settings) (env : IterEnv) (p : List Device) (w1 w2 : Nat),
        run_worker_iter st env { wait_seconds := w1, pool := p }
          = run_worker_iter st env { wait_seconds := w2, pool := p }) ∧
    (∀ (st : Settings) (envs : Nat → IterEnv) (n : Nat) (p : List Device)
        (w : Nat), (∀ k, NoWorkEnv (envs k)) → p ≠ [] →
        ∃ s2, run_worker_iters st envs (n + 1) { wait_seconds := w, pool := p }
            = some s2 ∧
          s2.wait_seconds = 11 ∧ s2.pool.Perm p) := by
  constructor
  · intro st env p w1 w2
    cases p <;> rfl
  · intro st envs n
    induction n with
    | zero =>
      intro p w h hp
      obtain ⟨d, rest, rfl⟩ : ∃ d rest, p = d :: rest := by
        cases p with
        | nil => exact absurd rfl hp
        | cons d rest => exact ⟨d, rest, rfl⟩
      refine ⟨_, rfl, ?_, pool_rotate_perm d rest⟩
      show wait_of (ask_for_work st (envs 0) d).outcome = 11
      rw [ask_for_work_no_work st (envs 0) d (h 0)]
      rfl
    | succ n ih =>
      intro p w h hp
      obtain ⟨d, rest, rfl⟩ : ∃ d rest, p = d :: rest := by
        cases p with
        | nil => exact absurd rfl hp
        | cons d rest => exact ⟨d, rest, rfl⟩
      rw [run_worker_iters_succ_cons]
      obtain ⟨s2, h1, h2, h3⟩ := ih (add_device_to_pool d rest)
        (wait_of (ask_for_work st (envs (n + 1)) d).outcome) h
        (by simp [add_device_to_pool])
      exact ⟨s2, h1, h2, h3.trans (pool_rotate_perm d rest)⟩

/-- C9 witness: both parts at concrete inputs — the iteration over pool
`[Device 0]` is identical for incoming waits 0 and 57, and three consecutive
no-work iterations starting from `wait_seconds = 7` end with
`wait_seconds = 11` and the pool intact. -/
theorem claim_C9_wait_memoryless_witness :
    run_worker_iter sample_settings (mk_env no_work_response)
        { wait_seconds := 0, pool := [{ device_id := 0 }] }
      = run_worker_iter sample_settings (mk_env no_work_response)
        { wait_seconds := 57, pool := [{ device_id := 0 }] } ∧
    ∃ s2, run_worker_iters sample_settings (fun _ => mk_env no_work_response)
        (2 + 1) { wait_seconds := 7, pool := [{ device_id := 0 }] }
        = some s2 ∧
      s2.wait_seconds = 11 ∧ s2.pool.Perm [{ device_id := 0 }] :=
  ⟨claim_C9_wait_memoryless.1 sample_settings (mk_env no_work_response)
      [{ device_id := 0 }] 0 57,
   claim_C9_wait_memoryless.2 sample_settings (fun _ => mk_env no_work_response)
      2 [{ device_id := 0 }] 7
      (fun _ => ⟨fun _ => ⟨(100, 999), rfl⟩,
        no_work_response, [("jobs", .jlist [])], rfl, rfl, rfl, rfl⟩)
      (by simp)⟩

theorem handle_status_200_ok_vals (r : Response) (device : Device)
    (je : Nat → JobEnv) (w : Nat)
    (h : (handle_status_200 r device je).outcome = .ok w) : w = 0 ∨ w = 11 := by
  cases hb0 : r.body with
  | none =>
    simp [handle_status_200, response_json, hb0] at h
    omega
  | some d =>
    cases d with
    | jobj fields =>
      cases hfind : fields.find? (fun p => p.1 == "jobs") with
      | none =>
        have hany : fields.any (fun p => p.1 == "jobs") = false := by
          rw [List.any_eq_false]
          intro q hq
          simp [List.find?_eq_none.mp hfind q hq]
        simp [handle_status_200, response_json, pyIn, hb0, hany] at h
        omega
      | some p =>
        have hpr := List.find?_some hfind
        have hmem := List.mem_of_find?_eq_some hfind
        have hany : fields.any (fun p => p.1 == "jobs") = true :=
          List.any_eq_true.mpr ⟨_, hmem, hpr⟩
        cases hp2 : p.2 with
        | jlist jobs =>
          simp [handle_status_200, response_json, pyIn, pyIndex, hb0, hany,
            hfind, hp2] at h
          split at h <;> omega
        | jnull =>
          simp [handle_status_200, response_json, pyIn, pyIndex, hb0, hany,
            hfind, hp2] at h
          omega
        | jbool b =>
          simp [handle_status_200, response_json, pyIn, pyIndex, hb0, hany,
            hfind, hp2] at h
          omega
        | jnum n =>
          simp [handle_status_200, response_json, pyIn, pyIndex, hb0, hany,
            hfind, hp2] at h
          omega
        | jstr sv =>
          simp [handle_status_200, response_json, pyIn, pyIndex, hb0, hany,
            hfind, hp2] at h
          omega
        | jobj fs2 =>
          simp [handle_status_200, response_json, pyIn, pyIndex, hb0, hany,
            hfind, hp2] at h
          omega
    | jnull => simp [handle_status_200, response_json, pyIn, hb0] at h
    | jbool b => simp [handle_status_200, response_json, pyIn, hb0] at h
    | jnum n => simp [handle_status_200, response_json, pyIn, hb0] at h
    | jstr sv =>
      cases hsc : str_contains sv "jobs" with
      | false =>
        simp [handle_status_200, response_json, pyIn, hb0, hsc] at h
        omega
      | true =>
        simp [handle_status_200, response_json, pyIn, pyIndex, hb0, hsc] at h
    | jlist xs =>
      cases hxc : xs.any (fun x => jval_is_str x "jobs") with
      | false =>
        simp [handle_status_200, response_json, pyIn, hb0, hxc] at h
        omega
      | true =>
        simp [handle_status_200, response_json, pyIn, pyIndex, hb0, hxc] at h

theorem ask_inner_ok_vals (st : Settings) (env : IterEnv) (device : Device)
    (w : Nat) (h : (ask_inner st env device).1 = .ok w) : w = 0 ∨ w = 11 := by
  cases hf : env.fetch with
  | error e => simp [ask_inner, hf] at h
  | ok r =>
    cases hst : (r.status == 200) with
    | true =>
      have h200 : (handle_status_200 r device env.jobEnvs).outcome = .ok w := by
        simpa [ask_inner, hf, hst] using h
      exact handle_status_200_ok_vals r device env.jobEnvs w h200
    | false =>
      cases hst4 : (r.status == 400) with
      | true =>
        cases ho : (handle_status_400 st r).outcome with
        | error e => simp [ask_inner, hf, hst, hst4, ho, Except.map] at h
        | ok u =>
          simp [ask_inner, hf, hst, hst4, ho, Except.map] at h
          omega
      | false =>
        cases hrs : raise_for_status r with
        | error e => simp [ask_inner, hf, hst, hst4, hrs] at h
        | ok u =>
          simp [ask_inner, hf, hst, hst4, hrs] at h
          omega

theorem ask_for_work_ok_vals (st : Settings) (env : IterEnv) (device : Device)
    (w : Nat) (h : (ask_for_work st env device).outcome = .ok w) :
    w = 0 ∨ w = 11 ∨ w = 121 := by
  cases hm : env.memInfo device.device_id with
  | error e => simp [ask_for_work, hm] at h
  | ok mem =>
    rcases hi : ask_inner st env device with ⟨o, log, ds⟩
    cases o with
    | ok w2 =>
      have h2 := ask_inner_ok_vals st env device w2 (by rw [hi])
      simp [ask_for_work, hm, hi] at h
      rcases h2 with h2 | h2 <;> omega
    | error e =>
      simp [ask_for_work, hm, hi] at h
      omega

/-- C10: whenever `ask_for_work` returns normally, its wait value is one of
exactly 0, 11 or 121; consequently after every completed poll iteration —
including iterations where the request step raised — the loop state's
`wait_seconds` is in that three-tier set. -/
theorem claim_C10_wait_three_tiers :
    (∀ (st : Settings) (env : IterEnv) (device : Device) (w : Nat),
        (ask_for_work st env device).outcome = .ok w →
        w = 0 ∨ w = 11 ∨ w = 121) ∧
    (∀ (st : Settings) (env : IterEnv) (s s2 : LoopState) (a : AskResult),
        run_worker_iter st env s = some (s2, a) →
        s2.wait_seconds = 0 ∨ s2.wait_seconds = 11 ∨ s2.wait_seconds = 121) := by
  constructor
  · exact ask_for_work_ok_vals
  · intro st env s s2 a hiter
    obtain ⟨ws, pool⟩ := s
    cases pool with
    | nil => simp [run_worker_iter, remove_device_from_pool] at hiter
    | cons d rest =>
      rw [run_worker_iter_cons] at hiter
      simp only [Option.some.injEq, Prod.mk.injEq] at hiter
      obtain ⟨h1, h2⟩ := hiter
      rw [← h1]
      cases ho : (ask_for_work st env d).outcome with
      | ok w =>
        have := ask_for_work_ok_vals st env d w ho
        simp only [wait_of, ho]
        exact this
      | error e =>
        simp only [wait_of, ho]
        right
        right
        trivial

/-- C10 witness: concrete instances of both parts — a no-work exchange
returns 11, and a completed iteration in an environment whose request step
raised ends with `wait_seconds` in the three-tier set. -/
theorem claim_C10_wait_three_tiers_witness :
    ((11 : Nat) = 0 ∨ (11 : Nat) = 11 ∨ (11 : Nat) = 121) ∧
    (∀ s2 a, run_worker_iter sample_settings raise_env
          { wait_seconds := 0, pool := [{ device_id := 0 }] } = some (s2, a) →
        s2.wait_seconds = 0 ∨ s2.wait_seconds = 11 ∨ s2.wait_seconds = 121) :=
  ⟨claim_C10_wait_three_tiers.1 sample_settings (mk_env no_work_response)
      { device_id := 0 } 11 rfl,
   fun s2 a h => claim_C10_wait_three_tiers.2 sample_settings raise_env
      { wait_seconds := 0, pool := [{ device_id := 0 }] } s2 a h⟩

end Swarm
